import Mathlib

/-!
# Local service accounts: `main.c`

A shallow embedding of `src/main.c`, the command line tool that creates and
destroys Windows local service accounts, and the proofs of its error-code,
call-order and resource-release properties.

The program is a sequence of Win32 calls with early returns. Every Win32 entry
point is called at most once in a run (`wmain_calls_each_entry_point_once`),
so the operating system is modelled by a record `OS` that fixes the outcome of
each entry point; the functions of the program run in a state monad whose
state is the log of the calls made so far (and of the lines printed).
Theorems quantify over every `OS`, that is, over every combination of
outcomes.
-/

namespace LocalServiceAccount

/-! ## Machine types and SDK constants -/

/-- A `DWORD`: an unsigned 32-bit value (`NET_API_STATUS`, `GetLastError`). -/
abbrev DWORD := Fin 4294967296

/-- The value of a `DWORD` converted to `int`, as done by `return status` in a
function returning `int` (two's complement, 32 bits). -/
def DWORD.toInt (d : DWORD) : Int :=
  if d.val < 2147483648 then (d.val : Int) else (d.val : Int) - 4294967296

/-- A security identifier, the content of `sidBuffer`. -/
abbrev SID := List Nat

/-- An LSA policy handle. -/
abbrev LSA_HANDLE := Nat

/-- The macro `#define STATUS_SUCCESS 0` (main.c, line 39). -/
def STATUS_SUCCESS : Int := 0

/-- The status `STATUS_OBJECT_NAME_NOT_FOUND` of `ntstatus.h`: `0xC0000034` as a signed
32-bit `NTSTATUS`. -/
def STATUS_OBJECT_NAME_NOT_FOUND : Int := -1073741772

/-- The error code `ERROR_FILE_NOT_FOUND` of `winerror.h`. -/
def ERROR_FILE_NOT_FOUND : DWORD := 2

/-- The status `NERR_Success` of `lmerr.h`. -/
def NERR_Success : DWORD := 0

/-- The right name `SE_SERVICE_LOGON_NAME` of `ntsecapi.h`. -/
def SE_SERVICE_LOGON_NAME : String := "SeServiceLogonRight"

/-! ## The operating system -/

/-- The outcome of each Win32 entry point the program calls. A `BOOL` or
`NTSTATUS` result is an `Int`, a `NET_API_STATUS` or last-error code a `DWORD`;
an entry point with an output parameter also gives the value it stores there.
`GetLastError` is the thread's last-error code as read after `DeleteProfile`. -/
structure OS where
  NetUserAdd : DWORD
  NetUserGetInfo : DWORD
  LookupAccountName : Int × SID
  LsaOpenPolicy : Int × LSA_HANDLE
  LsaAddAccountRights : Int
  LsaRemoveAccountRights : Int
  ConvertSidToStringSid : Int × String
  DeleteProfile : Int
  GetLastError : DWORD
  NetUserDel : DWORD

/-- The privilege level `USER_PRIV_USER` of `lmaccess.h`. -/
def USER_PRIV_USER : Nat := 1

/-- The flag `UF_SCRIPT` of `lmaccess.h`. -/
def UF_SCRIPT : Nat := 0x0001

/-- The flag `UF_DONT_EXPIRE_PASSWD` of `lmaccess.h`. -/
def UF_DONT_EXPIRE_PASSWD : Nat := 0x10000

/-- The fields of `USER_INFO_1` that `CreateServiceAccount` sets; `ZeroMemory`
leaves the others zero. -/
structure USER_INFO_1 where
  usri1_name : String
  usri1_password : String
  usri1_priv : Nat
  usri1_comment : String
  usri1_flags : Nat
deriving DecidableEq, Repr

/-- A call of a Win32 entry point, with the arguments the program passes and
the result it gets back. `GetLastError`, which only reads the last-error code
of the calling thread, is not recorded. -/
inductive Call where
  | NetUserAdd (userInfo : USER_INFO_1) (status : DWORD)
  | NetUserGetInfo (name : String) (status : DWORD)
  | NetApiBufferFree
  | LookupAccountName (name : String) (ok : Int)
  | LsaOpenPolicy (status : Int) (h : LSA_HANDLE)
  | LsaAddAccountRights (h : LSA_HANDLE) (sid : SID) (right : String) (status : Int)
  | LsaRemoveAccountRights (h : LSA_HANDLE) (sid : SID) (allRights : Bool)
      (right : Option String) (status : Int)
  | LsaClose (h : LSA_HANDLE)
  | ConvertSidToStringSid (sid : SID) (ok : Int)
  | DeleteProfile (sidString : String) (ok : Int)
  | LocalFree (sidString : String)
  | NetUserDel (name : String) (status : DWORD)
deriving DecidableEq, Repr

/-- What a run has done so far: the Win32 calls, in order, and the text
written to standard output, in order. -/
structure Log where
  calls : List Call := []
  out : List String := []
deriving DecidableEq, Repr

/-- Computations of the program: they read and extend the log. -/
abbrev Run := StateM Log

/-- Record a Win32 call. -/
def call (c : Call) : Run Unit :=
  modify fun s => { s with calls := s.calls ++ [c] }

/-- The C library's `printf`, after formatting. -/
def printf (text : String) : Run Unit :=
  modify fun s => { s with out := s.out ++ [text] }

/-! ## The program -/

/-- The function `addRemoveAccountRight` (main.c, lines 114-209). A `NULL` `rightName` is
`none`. -/
def addRemoveAccountRight (os : OS) (accountName : String) (rightName : Option String)
    (add : Bool) : Run Int := do
  let (found, sid) := os.LookupAccountName
  call (.LookupAccountName accountName found)
  if found = 0 then
    return -2
  let (opened, lsaHandle) := os.LsaOpenPolicy
  call (.LsaOpenPolicy opened lsaHandle)
  if STATUS_SUCCESS ≠ opened then
    return -3
  match rightName with
  | some privilegeString =>
    if add then
      let status := os.LsaAddAccountRights
      call (.LsaAddAccountRights lsaHandle sid privilegeString status)
      if STATUS_SUCCESS ≠ status then
        call (.LsaClose lsaHandle)
        return -4
    else
      let status := os.LsaRemoveAccountRights
      call (.LsaRemoveAccountRights lsaHandle sid false (some privilegeString) status)
      if STATUS_SUCCESS ≠ status then
        call (.LsaClose lsaHandle)
        return -5
  | none =>
    if !add then
      let status := os.LsaRemoveAccountRights
      call (.LsaRemoveAccountRights lsaHandle sid true none status)
      if STATUS_SUCCESS ≠ status ∧ STATUS_OBJECT_NAME_NOT_FOUND ≠ status then
        call (.LsaClose lsaHandle)
        return -6
      let (converted, sidString) := os.ConvertSidToStringSid
      call (.ConvertSidToStringSid sid converted)
      if converted = 0 then
        call (.LsaClose lsaHandle)
        return -7
      let deleted := os.DeleteProfile
      call (.DeleteProfile sidString deleted)
      if deleted = 0 then
        let lastError := os.GetLastError
        if lastError ≠ ERROR_FILE_NOT_FOUND then
          call (.LocalFree sidString)
          call (.LsaClose lsaHandle)
          return -8
      call (.LocalFree sidString)
      let deletedUser := os.NetUserDel
      call (.NetUserDel accountName deletedUser)
      if NERR_Success ≠ deletedUser then
        call (.LsaClose lsaHandle)
        return -9
  call (.LsaClose lsaHandle)
  return 0

/-- The function `addAccountRight` (main.c, lines 108-111). -/
def addAccountRight (os : OS) (accountName rightName : String) : Run Int :=
  addRemoveAccountRight os accountName (some rightName) true

/-- The function `CreateServiceAccount` (main.c, lines 68-87). -/
def CreateServiceAccount (os : OS) (accountName password comment : String) : Run Int := do
  let userInfo : USER_INFO_1 :=
    { usri1_name := accountName
      usri1_password := password
      usri1_priv := USER_PRIV_USER
      usri1_comment := comment
      usri1_flags := UF_DONT_EXPIRE_PASSWD ||| UF_SCRIPT }
  let status := os.NetUserAdd
  call (.NetUserAdd userInfo status)
  if status ≠ 0 then
    return status.toInt
  addAccountRight os accountName SE_SERVICE_LOGON_NAME

/-- The function `DestroyServiceAccount` (main.c, lines 90-93). -/
def DestroyServiceAccount (os : OS) (accountName : String) : Run Int :=
  addRemoveAccountRight os accountName none false

/-- The function `ServiceAccountExists` (main.c, lines 96-105). -/
def ServiceAccountExists (os : OS) (accountName : String) : Run Int := do
  let status := os.NetUserGetInfo
  call (.NetUserGetInfo accountName status)
  call .NetApiBufferFree
  return status.toInt

/-- The function `showHelp` (main.c, lines 212-219). -/
def showHelp : Run Unit := do
  printf "available commands:\n\n"
  printf "create <account name> <account password>\n"
  printf "  create a service account and assign it the \x60log on as a service right\x27.\n"
  printf "\n"
  printf "destroy <account name>\n"
  printf "  destroy a service account, respective rights and profile.\n"

/-- The function `createServiceAccount` (main.c, lines 222-238). -/
def createServiceAccount (os : OS) (accountName accountPassword : String) : Run Int := do
  let error ← ServiceAccountExists os accountName
  if error = 0 then
    printf "ERROR did not create the account because it already exists.\n"
    return -1
  let result ← CreateServiceAccount os accountName accountPassword ""
  if result ≠ 0 then
    printf ("ERROR failed to create account with result=" ++ toString result ++ "\n")
    return -1
  return 0

/-- The function `destroyServiceAccount` (main.c, lines 241-257). -/
def destroyServiceAccount (os : OS) (accountName : String) : Run Int := do
  let error ← ServiceAccountExists os accountName
  if error ≠ 0 then
    printf "WARN did not destroy the account because it does not exists.\n"
    return -1
  let result ← DestroyServiceAccount os accountName
  if result ≠ 0 then
    printf ("ERROR failed to remove account with result=" ++ toString result ++ "\n")
    return -1
  return 0

/-- The function `wmain` (main.c, lines 260-271): `argc` is the length of `argv`. -/
def wmain (os : OS) (argv : List String) : Run Int := do
  if argv.length = 4 ∧ argv[1]? = some "create" then
    return ← createServiceAccount os (argv.getD 2 "") (argv.getD 3 "")
  if argv.length = 3 ∧ argv[1]? = some "destroy" then
    return ← destroyServiceAccount os (argv.getD 2 "")
  showHelp
  return -1

/-! ## Observing a run -/

/-- The value a computation returns when started with an empty log. -/
def ret (m : Run Int) : Int := (m.run {}).1

/-- The Win32 calls a computation makes, in order. -/
def calls (m : Run Int) : List Call := (m.run {}).2.calls

/-- The log `s` extended by the calls `cs`. -/
def Log.called (s : Log) (cs : List Call) : Log := { s with calls := s.calls ++ cs }

/-! ### Outcomes of the steps

Win32 conventions, as the source tests them: a `BOOL` is success when nonzero,
an `NTSTATUS` when it is `STATUS_SUCCESS`, a `NET_API_STATUS` when it is
`NERR_Success`. -/

/-- The call of `LookupAccountName` resolved the account name to a SID. -/
def OS.sidFound (os : OS) : Prop := os.LookupAccountName.1 ≠ 0

/-- The call of `LsaOpenPolicy` gave a policy handle. -/
def OS.policyOpened (os : OS) : Prop := os.LsaOpenPolicy.1 = STATUS_SUCCESS

/-- The call of `LsaAddAccountRights` granted the right. -/
def OS.rightGranted (os : OS) : Prop := os.LsaAddAccountRights = STATUS_SUCCESS

/-- The call of `LsaRemoveAccountRights` succeeded. -/
def OS.rightRemoved (os : OS) : Prop := os.LsaRemoveAccountRights = STATUS_SUCCESS

/-- The bulk revoke succeeded, or reported that the account has no rights. -/
def OS.rightsRevoked (os : OS) : Prop :=
  os.LsaRemoveAccountRights = STATUS_SUCCESS ∨
    os.LsaRemoveAccountRights = STATUS_OBJECT_NAME_NOT_FOUND

/-- The call of `ConvertSidToStringSid` rendered the SID. -/
def OS.sidRendered (os : OS) : Prop := os.ConvertSidToStringSid.1 ≠ 0

/-- The call of `DeleteProfile` succeeded, or failed because the profile does not exist. -/
def OS.profileDeleted (os : OS) : Prop :=
  os.DeleteProfile ≠ 0 ∨ os.GetLastError = ERROR_FILE_NOT_FOUND

/-- The call of `NetUserDel` deleted the account. -/
def OS.accountDeleted (os : OS) : Prop := os.NetUserDel = NERR_Success

instance (os : OS) : Decidable os.sidFound := by unfold OS.sidFound; infer_instance
instance (os : OS) : Decidable os.policyOpened := by unfold OS.policyOpened; infer_instance
instance (os : OS) : Decidable os.rightGranted := by unfold OS.rightGranted; infer_instance
instance (os : OS) : Decidable os.rightRemoved := by unfold OS.rightRemoved; infer_instance
instance (os : OS) : Decidable os.rightsRevoked := by unfold OS.rightsRevoked; infer_instance
instance (os : OS) : Decidable os.sidRendered := by unfold OS.sidRendered; infer_instance
instance (os : OS) : Decidable os.profileDeleted := by unfold OS.profileDeleted; infer_instance
instance (os : OS) : Decidable os.accountDeleted := by unfold OS.accountDeleted; infer_instance

/-! ### Kinds of calls -/

/-- A release of the policy handle. -/
def Call.isLsaClose : Call → Bool
  | .LsaClose _ => true
  | _ => false

/-- A call of `LsaOpenPolicy` that returned `STATUS_SUCCESS`. -/
def Call.isPolicyOpened : Call → Bool
  | .LsaOpenPolicy status _ => decide (status = STATUS_SUCCESS)
  | _ => false

/-- A call that takes the policy handle. -/
def Call.usesHandle : Call → Bool
  | .LsaAddAccountRights .. => true
  | .LsaRemoveAccountRights .. => true
  | .LsaClose _ => true
  | _ => false

/-- A call that grants or revokes rights. -/
def Call.isRightsCall : Call → Bool
  | .LsaAddAccountRights .. => true
  | .LsaRemoveAccountRights .. => true
  | _ => false

/-- A call of `ConvertSidToStringSid`. -/
def Call.isSidRender : Call → Bool
  | .ConvertSidToStringSid .. => true
  | _ => false

/-- A successful conversion of the SID to a string. -/
def Call.isSidRendered : Call → Bool
  | .ConvertSidToStringSid _ ok => decide (ok ≠ 0)
  | _ => false

/-- A call of `DeleteProfile`. -/
def Call.isProfileDelete : Call → Bool
  | .DeleteProfile .. => true
  | _ => false

/-- A call of `NetUserDel`. -/
def Call.isAccountDelete : Call → Bool
  | .NetUserDel .. => true
  | _ => false

/-- A release of the rendered SID string. -/
def Call.isLocalFree : Call → Bool
  | .LocalFree _ => true
  | _ => false

/-- A call that only releases a resource. -/
def Call.isRelease : Call → Bool
  | .LsaClose _ => true
  | .LocalFree _ => true
  | .NetApiBufferFree => true
  | _ => false

/-- A call that changes the account database, the policy store or the
profiles. -/
def Call.isMutating : Call → Bool
  | .NetUserAdd .. => true
  | .LsaAddAccountRights .. => true
  | .LsaRemoveAccountRights .. => true
  | .DeleteProfile .. => true
  | .NetUserDel .. => true
  | _ => false

/-- The steps of the full teardown. -/
inductive TeardownStep where
  | removeAllRights
  | renderSid
  | deleteProfile
  | deleteAccount
deriving DecidableEq, Repr

/-- The teardown step a call carries out, if any. -/
def Call.teardownStep : Call → Option TeardownStep
  | .LsaRemoveAccountRights _ _ true none _ => some .removeAllRights
  | .ConvertSidToStringSid .. => some .renderSid
  | .DeleteProfile .. => some .deleteProfile
  | .NetUserDel .. => some .deleteAccount
  | _ => none

/-- The calls of `t` that follow its first call of kind `p`. -/
def callsAfter (p : Call → Bool) (t : List Call) : List Call :=
  (t.dropWhile fun c => !p c).drop 1

/-- The calls of `t` that follow its last call of kind `p`; none when `t`
has no call of kind `p`. -/
def callsAfterLast (p : Call → Bool) (t : List Call) : List Call :=
  if t.any p then (t.reverse.takeWhile fun c => !p c).reverse else []

/-- The Win32 entry point a call goes to. -/
def Call.entryPoint : Call → String
  | .NetUserAdd .. => "NetUserAdd"
  | .NetUserGetInfo .. => "NetUserGetInfo"
  | .NetApiBufferFree => "NetApiBufferFree"
  | .LookupAccountName .. => "LookupAccountName"
  | .LsaOpenPolicy .. => "LsaOpenPolicy"
  | .LsaAddAccountRights .. => "LsaAddAccountRights"
  | .LsaRemoveAccountRights .. => "LsaRemoveAccountRights"
  | .LsaClose _ => "LsaClose"
  | .ConvertSidToStringSid .. => "ConvertSidToStringSid"
  | .DeleteProfile .. => "DeleteProfile"
  | .LocalFree _ => "LocalFree"
  | .NetUserDel .. => "NetUserDel"

/-! ### Sample systems -/

/-- The status `STATUS_ACCESS_DENIED` of `ntstatus.h`: `0xC0000022` as a signed 32-bit
`NTSTATUS`. -/
def STATUS_ACCESS_DENIED : Int := -1073741790

/-- The error code `ERROR_ACCESS_DENIED` of `winerror.h`. -/
def ERROR_ACCESS_DENIED : DWORD := 5

/-- The status `NERR_UserNotFound` of `lmerr.h`. -/
def NERR_UserNotFound : DWORD := 2221

/-- A machine on which the account exists and every call succeeds. -/
def OS.healthy : OS where
  NetUserAdd := 0
  NetUserGetInfo := 0
  LookupAccountName := (1, [1, 5, 21, 1001])
  LsaOpenPolicy := (0, 7)
  LsaAddAccountRights := 0
  LsaRemoveAccountRights := 0
  ConvertSidToStringSid := (1, "S-1-5-21-1001")
  DeleteProfile := 1
  GetLastError := 0
  NetUserDel := 0

/-- A machine on which the account does not exist yet and every call
succeeds. -/
def OS.fresh : OS := { OS.healthy with NetUserGetInfo := NERR_UserNotFound }

/-- A machine on which the account can be added but the caller may not grant
rights. -/
def OS.grantDenied : OS := { OS.fresh with LsaAddAccountRights := STATUS_ACCESS_DENIED }

/-! ## Symbolic execution

The log and the return value of every path through `addRemoveAccountRight`,
from an arbitrary starting log. -/

/-- The full teardown (`rightName` absent, `add` false), path by path. -/
theorem addRemoveAccountRight_teardown (os : OS) (n : String) (s : Log) :
    addRemoveAccountRight os n none false s =
      if ¬ os.sidFound then
        (-2, s.called [.LookupAccountName n os.LookupAccountName.1])
      else if ¬ os.policyOpened then
        (-3, s.called [.LookupAccountName n os.LookupAccountName.1,
          .LsaOpenPolicy os.LsaOpenPolicy.1 os.LsaOpenPolicy.2])
      else if ¬ os.rightsRevoked then
        (-6, s.called [.LookupAccountName n os.LookupAccountName.1,
          .LsaOpenPolicy os.LsaOpenPolicy.1 os.LsaOpenPolicy.2,
          .LsaRemoveAccountRights os.LsaOpenPolicy.2 os.LookupAccountName.2 true none
            os.LsaRemoveAccountRights,
          .LsaClose os.LsaOpenPolicy.2])
      else if ¬ os.sidRendered then
        (-7, s.called [.LookupAccountName n os.LookupAccountName.1,
          .LsaOpenPolicy os.LsaOpenPolicy.1 os.LsaOpenPolicy.2,
          .LsaRemoveAccountRights os.LsaOpenPolicy.2 os.LookupAccountName.2 true none
            os.LsaRemoveAccountRights,
          .ConvertSidToStringSid os.LookupAccountName.2 os.ConvertSidToStringSid.1,
          .LsaClose os.LsaOpenPolicy.2])
      else if ¬ os.profileDeleted then
        (-8, s.called [.LookupAccountName n os.LookupAccountName.1,
          .LsaOpenPolicy os.LsaOpenPolicy.1 os.LsaOpenPolicy.2,
          .LsaRemoveAccountRights os.LsaOpenPolicy.2 os.LookupAccountName.2 true none
            os.LsaRemoveAccountRights,
          .ConvertSidToStringSid os.LookupAccountName.2 os.ConvertSidToStringSid.1,
          .DeleteProfile os.ConvertSidToStringSid.2 os.DeleteProfile,
          .LocalFree os.ConvertSidToStringSid.2,
          .LsaClose os.LsaOpenPolicy.2])
      else
        (if ¬ os.accountDeleted then -9 else 0,
          s.called [.LookupAccountName n os.LookupAccountName.1,
          .LsaOpenPolicy os.LsaOpenPolicy.1 os.LsaOpenPolicy.2,
          .LsaRemoveAccountRights os.LsaOpenPolicy.2 os.LookupAccountName.2 true none
            os.LsaRemoveAccountRights,
          .ConvertSidToStringSid os.LookupAccountName.2 os.ConvertSidToStringSid.1,
          .DeleteProfile os.ConvertSidToStringSid.2 os.DeleteProfile,
          .LocalFree os.ConvertSidToStringSid.2,
          .NetUserDel n os.NetUserDel,
          .LsaClose os.LsaOpenPolicy.2]) := by
  simp only [addRemoveAccountRight, call, bind, StateT.bind, modify, modifyGet,
    MonadStateOf.modifyGet, StateT.modifyGet, pure, StateT.pure, OS.sidFound, OS.policyOpened,
    OS.rightsRevoked, OS.sidRendered, OS.profileDeleted, OS.accountDeleted, STATUS_SUCCESS,
    NERR_Success, Log.called]
  by_cases h1 : os.LookupAccountName.1 = 0
  · simp [h1, StateT.bind, StateT.pure, StateT.modifyGet]
  by_cases h2 : os.LsaOpenPolicy.1 = 0
  swap
  · simp [StateT.bind, StateT.pure, StateT.modifyGet, h1, h2, eq_comm (a := (0 : Int))]
  by_cases h3 : os.LsaRemoveAccountRights = 0 ∨
      os.LsaRemoveAccountRights = STATUS_OBJECT_NAME_NOT_FOUND
  swap
  · have h3' := h3
    rw [not_or] at h3'
    simp [StateT.bind, StateT.pure, StateT.modifyGet, h1, h2, h3, h3'.1, h3'.2,
      eq_comm (a := (0 : Int)), eq_comm (a := STATUS_OBJECT_NAME_NOT_FOUND)]
  have h3' : ¬ (¬ os.LsaRemoveAccountRights = 0 ∧
      ¬ os.LsaRemoveAccountRights = STATUS_OBJECT_NAME_NOT_FOUND) := by tauto
  by_cases h4 : os.ConvertSidToStringSid.1 = 0
  · simp [StateT.bind, StateT.pure, StateT.modifyGet, h1, h2, h3, h3', h4,
      eq_comm (a := (0 : Int)), eq_comm (a := STATUS_OBJECT_NAME_NOT_FOUND)]
  by_cases h5 : os.DeleteProfile = 0 <;> by_cases h6 : os.GetLastError = ERROR_FILE_NOT_FOUND <;>
    by_cases h7 : os.NetUserDel = 0 <;>
    simp [StateT.bind, StateT.pure, StateT.modifyGet, h1, h2, h3, h3', h4, h5, h6, h7,
      eq_comm (a := (0 : Int)), eq_comm (a := STATUS_OBJECT_NAME_NOT_FOUND),
      eq_comm (a := (0 : DWORD))]

/-- The paths with a right name: one grant, or one revoke of that right. -/
theorem addRemoveAccountRight_named (os : OS) (n r : String) (add : Bool) (s : Log) :
    addRemoveAccountRight os n (some r) add s =
      if ¬ os.sidFound then
        (-2, s.called [.LookupAccountName n os.LookupAccountName.1])
      else if ¬ os.policyOpened then
        (-3, s.called [.LookupAccountName n os.LookupAccountName.1,
          .LsaOpenPolicy os.LsaOpenPolicy.1 os.LsaOpenPolicy.2])
      else if add then
        (if ¬ os.rightGranted then -4 else 0,
          s.called [.LookupAccountName n os.LookupAccountName.1,
          .LsaOpenPolicy os.LsaOpenPolicy.1 os.LsaOpenPolicy.2,
          .LsaAddAccountRights os.LsaOpenPolicy.2 os.LookupAccountName.2 r
            os.LsaAddAccountRights,
          .LsaClose os.LsaOpenPolicy.2])
      else
        (if ¬ os.rightRemoved then -5 else 0,
          s.called [.LookupAccountName n os.LookupAccountName.1,
          .LsaOpenPolicy os.LsaOpenPolicy.1 os.LsaOpenPolicy.2,
          .LsaRemoveAccountRights os.LsaOpenPolicy.2 os.LookupAccountName.2 false (some r)
            os.LsaRemoveAccountRights,
          .LsaClose os.LsaOpenPolicy.2]) := by
  simp only [addRemoveAccountRight, call, bind, StateT.bind, modify, modifyGet,
    MonadStateOf.modifyGet, StateT.modifyGet, pure, StateT.pure, OS.sidFound, OS.policyOpened,
    OS.rightGranted, OS.rightRemoved, STATUS_SUCCESS, Log.called]
  by_cases h1 : os.LookupAccountName.1 = 0
  · simp [h1, StateT.bind, StateT.pure, StateT.modifyGet]
  by_cases h2 : os.LsaOpenPolicy.1 = 0
  swap
  · simp [StateT.bind, StateT.pure, StateT.modifyGet, h1, h2, eq_comm (a := (0 : Int))]
  cases add
  · by_cases h3 : os.LsaRemoveAccountRights = 0 <;>
      simp [StateT.bind, StateT.pure, StateT.modifyGet, h1, h2, h3, eq_comm (a := (0 : Int))]
  · by_cases h3 : os.LsaAddAccountRights = 0 <;>
      simp [StateT.bind, StateT.pure, StateT.modifyGet, h1, h2, h3, eq_comm (a := (0 : Int))]

/-- The path with no right name and `add` true: the handle is opened and
closed, nothing else. -/
theorem addRemoveAccountRight_absent_add (os : OS) (n : String) (s : Log) :
    addRemoveAccountRight os n none true s =
      if ¬ os.sidFound then
        (-2, s.called [.LookupAccountName n os.LookupAccountName.1])
      else if ¬ os.policyOpened then
        (-3, s.called [.LookupAccountName n os.LookupAccountName.1,
          .LsaOpenPolicy os.LsaOpenPolicy.1 os.LsaOpenPolicy.2])
      else
        (0, s.called [.LookupAccountName n os.LookupAccountName.1,
          .LsaOpenPolicy os.LsaOpenPolicy.1 os.LsaOpenPolicy.2,
          .LsaClose os.LsaOpenPolicy.2]) := by
  simp only [addRemoveAccountRight, call, bind, StateT.bind, modify, modifyGet,
    MonadStateOf.modifyGet, StateT.modifyGet, pure, StateT.pure, OS.sidFound, OS.policyOpened,
    STATUS_SUCCESS, Log.called]
  by_cases h1 : os.LookupAccountName.1 = 0
  · simp [h1, StateT.bind, StateT.pure, StateT.modifyGet]
  by_cases h2 : os.LsaOpenPolicy.1 = 0 <;>
    simp [StateT.bind, StateT.pure, StateT.modifyGet, h1, h2, eq_comm (a := (0 : Int))]

/-- Only the zero `DWORD` converts to the `int` zero. -/
theorem DWORD.toInt_eq_zero (d : DWORD) : d.toInt = 0 ↔ d = 0 := by
  unfold DWORD.toInt
  constructor
  · intro h
    apply Fin.ext
    have := d.isLt
    split_ifs at h <;> simp at * <;> omega
  · rintro rfl
    simp

/-- The starting log only prefixes what `addRemoveAccountRight` records. -/
theorem addRemoveAccountRight_frame (os : OS) (n : String) (r : Option String) (add : Bool)
    (s : Log) :
    addRemoveAccountRight os n r add s =
      ((addRemoveAccountRight os n r add {}).1,
        s.called (addRemoveAccountRight os n r add {}).2.calls) := by
  rcases r with _ | r <;> cases add
  · rw [addRemoveAccountRight_teardown os n s, addRemoveAccountRight_teardown os n {}]
    split_ifs <;> simp [Log.called]
  · rw [addRemoveAccountRight_absent_add os n s, addRemoveAccountRight_absent_add os n {}]
    split_ifs <;> simp [Log.called]
  · rw [addRemoveAccountRight_named os n r false s, addRemoveAccountRight_named os n r false {}]
    split_ifs <;> simp [Log.called]
  · rw [addRemoveAccountRight_named os n r true s, addRemoveAccountRight_named os n r true {}]
    split_ifs <;> simp [Log.called]

/-- The function `ServiceAccountExists` makes the query, frees its buffer and returns the
status. -/
theorem ServiceAccountExists_run (os : OS) (n : String) (s : Log) :
    ServiceAccountExists os n s =
      (os.NetUserGetInfo.toInt,
        s.called [.NetUserGetInfo n os.NetUserGetInfo, .NetApiBufferFree]) := by
  simp [ServiceAccountExists, call, bind, StateT.bind, modify, modifyGet,
    MonadStateOf.modifyGet, StateT.modifyGet, pure, StateT.pure, Log.called]

/-- The function `CreateServiceAccount` adds the account and, when that succeeds, grants
the right. -/
theorem CreateServiceAccount_run (os : OS) (n p c : String) (s : Log) :
    CreateServiceAccount os n p c s =
      if os.NetUserAdd ≠ 0 then
        (os.NetUserAdd.toInt,
          s.called [.NetUserAdd ⟨n, p, USER_PRIV_USER, c, UF_DONT_EXPIRE_PASSWD ||| UF_SCRIPT⟩
            os.NetUserAdd])
      else
        addRemoveAccountRight os n (some SE_SERVICE_LOGON_NAME) true
          (s.called [.NetUserAdd ⟨n, p, USER_PRIV_USER, c, UF_DONT_EXPIRE_PASSWD ||| UF_SCRIPT⟩
            os.NetUserAdd]) := by
  by_cases h : os.NetUserAdd = 0 <;>
    simp [CreateServiceAccount, addAccountRight, call, bind, StateT.bind, modify, modifyGet,
      MonadStateOf.modifyGet, StateT.modifyGet, pure, StateT.pure, Log.called, h]

/-- The return value of `CreateServiceAccount` does not depend on the
starting log. -/
theorem CreateServiceAccount_ret (os : OS) (n p c : String) (s : Log) :
    (CreateServiceAccount os n p c s).1 = ret (CreateServiceAccount os n p c) := by
  simp only [ret, StateT.run, CreateServiceAccount_run]
  split_ifs
  · rfl
  · rw [addRemoveAccountRight_frame os n _ _ (s.called _),
      addRemoveAccountRight_frame os n _ _ (Log.called _ _)]

/-- The return value of `DestroyServiceAccount` does not depend on the
starting log. -/
theorem DestroyServiceAccount_ret (os : OS) (n : String) (s : Log) :
    (DestroyServiceAccount os n s).1 = ret (DestroyServiceAccount os n) := by
  simp only [ret, StateT.run, DestroyServiceAccount]
  rw [addRemoveAccountRight_frame os n _ _ s]

/-- The function `createServiceAccount` returns 0 when the account is absent and
`CreateServiceAccount` returns 0, and -1 otherwise. -/
theorem createServiceAccount_ret (os : OS) (n pw : String) :
    ret (createServiceAccount os n pw) =
      if ret (ServiceAccountExists os n) ≠ 0 ∧ ret (CreateServiceAccount os n pw "") = 0
      then 0 else -1 := by
  have hc := CreateServiceAccount_ret os n pw ""
    (Log.called {} [.NetUserGetInfo n os.NetUserGetInfo, .NetApiBufferFree])
  simp only [ret, StateT.run, createServiceAccount, ServiceAccountExists_run, bind,
    StateT.bind] at hc ⊢
  rw [← hc]
  by_cases he : os.NetUserGetInfo.toInt = 0
  · simp [pure, StateT.pure, StateT.bind, printf, modify, modifyGet, MonadStateOf.modifyGet,
      StateT.modifyGet, he]
  · by_cases hr : (CreateServiceAccount os n pw ""
        (Log.called {} [.NetUserGetInfo n os.NetUserGetInfo, .NetApiBufferFree])).1 = 0 <;>
      simp [pure, StateT.pure, StateT.bind, printf, modify, modifyGet,
        MonadStateOf.modifyGet, StateT.modifyGet, he, hr]

/-- The function `destroyServiceAccount` returns 0 when the account is present and
`DestroyServiceAccount` returns 0, and -1 otherwise. -/
theorem destroyServiceAccount_ret (os : OS) (n : String) :
    ret (destroyServiceAccount os n) =
      if ret (ServiceAccountExists os n) = 0 ∧ ret (DestroyServiceAccount os n) = 0
      then 0 else -1 := by
  have hd := DestroyServiceAccount_ret os n
    (Log.called {} [.NetUserGetInfo n os.NetUserGetInfo, .NetApiBufferFree])
  simp only [ret, StateT.run, destroyServiceAccount, ServiceAccountExists_run, bind,
    StateT.bind] at hd ⊢
  rw [← hd]
  by_cases he : os.NetUserGetInfo.toInt = 0
  · by_cases hr : (DestroyServiceAccount os n
        (Log.called {} [.NetUserGetInfo n os.NetUserGetInfo, .NetApiBufferFree])).1 = 0 <;>
      simp [pure, StateT.pure, StateT.bind, printf, modify, modifyGet,
        MonadStateOf.modifyGet, StateT.modifyGet, he, hr]
  · simp [pure, StateT.pure, StateT.bind, printf, modify, modifyGet, MonadStateOf.modifyGet,
      StateT.modifyGet, he]

/-- A refused `createServiceAccount` only queries the account. -/
theorem createServiceAccount_refused (os : OS) (n pw : String)
    (h : ret (ServiceAccountExists os n) = 0) :
    createServiceAccount os n pw {} =
      (-1, { calls := [.NetUserGetInfo n os.NetUserGetInfo, .NetApiBufferFree],
             out := ["ERROR did not create the account because it already exists.\n"] }) := by
  simp only [ret, StateT.run, ServiceAccountExists_run] at h
  simp [createServiceAccount, ServiceAccountExists_run, bind, StateT.bind, pure,
    StateT.pure, printf, modify, modifyGet, MonadStateOf.modifyGet, StateT.modifyGet, h,
    Log.called]

/-- A refused `destroyServiceAccount` only queries the account. -/
theorem destroyServiceAccount_refused (os : OS) (n : String)
    (h : ret (ServiceAccountExists os n) ≠ 0) :
    destroyServiceAccount os n {} =
      (-1, { calls := [.NetUserGetInfo n os.NetUserGetInfo, .NetApiBufferFree],
             out := ["WARN did not destroy the account because it does not exists.\n"] }) := by
  simp only [ret, StateT.run, ServiceAccountExists_run] at h
  simp [destroyServiceAccount, ServiceAccountExists_run, bind, StateT.bind, pure,
    StateT.pure, printf, modify, modifyGet, MonadStateOf.modifyGet, StateT.modifyGet, h,
    Log.called]

/-- With `create`, a name and a password, `wmain` is `createServiceAccount`. -/
theorem wmain_create (os : OS) (prog n pw : String) :
    wmain os [prog, "create", n, pw] = createServiceAccount os n pw := by
  simp [wmain]

/-- With `destroy` and a name, `wmain` is `destroyServiceAccount`. -/
theorem wmain_destroy (os : OS) (prog n : String) :
    wmain os [prog, "destroy", n] = destroyServiceAccount os n := by
  simp [wmain]

/-- With any other arguments `wmain` prints the help and returns -1, calling
nothing. -/
theorem wmain_help (os : OS) (argv : List String)
    (hc : ¬ (argv.length = 4 ∧ argv[1]? = some "create"))
    (hd : ¬ (argv.length = 3 ∧ argv[1]? = some "destroy")) :
    ret (wmain os argv) = -1 ∧ calls (wmain os argv) = [] := by
  simp [wmain, ret, calls, StateT.run, hc, hd, showHelp, bind, StateT.bind, pure,
    StateT.pure, printf, modify, modifyGet, MonadStateOf.modifyGet, StateT.modifyGet]

/-- The calls of `createServiceAccount`. -/
theorem createServiceAccount_calls (os : OS) (n pw : String) :
    calls (createServiceAccount os n pw) =
      calls (ServiceAccountExists os n) ++
        if ret (ServiceAccountExists os n) = 0 then []
        else calls (CreateServiceAccount os n pw "") := by
  simp only [ret, calls, StateT.run, createServiceAccount, ServiceAccountExists_run, bind,
    StateT.bind, CreateServiceAccount_run, addRemoveAccountRight_named]
  by_cases he : os.NetUserGetInfo.toInt = 0
  · simp [he, pure, StateT.pure, StateT.bind, printf, modify, modifyGet,
      MonadStateOf.modifyGet, StateT.modifyGet, Log.called]
  · simp only [he, if_false]
    split_ifs <;>
      simp_all [pure, StateT.pure, StateT.bind, printf, modify, modifyGet,
        MonadStateOf.modifyGet, StateT.modifyGet, Log.called, DWORD.toInt_eq_zero,
        CreateServiceAccount_run, addRemoveAccountRight_named]

/-- The calls of `destroyServiceAccount`. -/
theorem destroyServiceAccount_calls (os : OS) (n : String) :
    calls (destroyServiceAccount os n) =
      calls (ServiceAccountExists os n) ++
        if ret (ServiceAccountExists os n) ≠ 0 then []
        else calls (DestroyServiceAccount os n) := by
  simp only [ret, calls, StateT.run, destroyServiceAccount, DestroyServiceAccount,
    ServiceAccountExists_run, bind, StateT.bind, addRemoveAccountRight_teardown]
  by_cases he : os.NetUserGetInfo.toInt = 0
  · simp only [he]
    split_ifs <;>
      simp_all [pure, StateT.pure, StateT.bind, printf, modify, modifyGet,
        MonadStateOf.modifyGet, StateT.modifyGet, Log.called, addRemoveAccountRight_teardown]
  · simp [he, pure, StateT.pure, StateT.bind, printf, modify, modifyGet,
      MonadStateOf.modifyGet, StateT.modifyGet, Log.called]

/-- No run of the program calls a Win32 entry point twice, so one outcome for
each entry point describes the operating system in full. -/
theorem wmain_calls_each_entry_point_once (os : OS) (argv : List String) :
    ((calls (wmain os argv)).map Call.entryPoint).Nodup := by
  by_cases hc : argv.length = 4 ∧ argv[1]? = some "create"
  · obtain ⟨prog, n, pw, rfl⟩ : ∃ prog n pw, argv = [prog, "create", n, pw] := by
      rcases argv with _ | ⟨a, _ | ⟨b, _ | ⟨c, _ | ⟨d, _ | ⟨e, l⟩⟩⟩⟩⟩ <;> simp at hc
      exact ⟨a, c, d, by rw [hc]⟩
    rw [wmain_create, createServiceAccount_calls]
    simp only [ret, calls, StateT.run, ServiceAccountExists_run, CreateServiceAccount_run,
      addRemoveAccountRight_named]
    split_ifs <;> simp [Log.called, Call.entryPoint]
  by_cases hd : argv.length = 3 ∧ argv[1]? = some "destroy"
  · obtain ⟨prog, n, rfl⟩ : ∃ prog n, argv = [prog, "destroy", n] := by
      rcases argv with _ | ⟨a, _ | ⟨b, _ | ⟨c, _ | ⟨d, l⟩⟩⟩⟩ <;> simp at hd
      exact ⟨a, c, by rw [hd]⟩
    rw [wmain_destroy, destroyServiceAccount_calls]
    simp only [ret, calls, StateT.run, ServiceAccountExists_run, DestroyServiceAccount,
      addRemoveAccountRight_teardown]
    split_ifs <;> simp [Log.called, Call.entryPoint]
  · rw [(wmain_help os argv hc hd).2]
    simp

/-! ## Concrete runs -/

/-- A full teardown on a healthy machine: eight calls, result 0. -/
theorem DestroyServiceAccount_healthy :
    (DestroyServiceAccount OS.healthy "svc").run {} =
      (0,
        { calls := [.LookupAccountName "svc" 1, .LsaOpenPolicy 0 7,
            .LsaRemoveAccountRights 7 [1, 5, 21, 1001] true none 0,
            .ConvertSidToStringSid [1, 5, 21, 1001] 1,
            .DeleteProfile "S-1-5-21-1001" 1, .LocalFree "S-1-5-21-1001",
            .NetUserDel "svc" 0, .LsaClose 7]
          out := [] }) := by
  rfl

/-- The command `create svc secret` where the grant is denied: the account is
added, the grant fails, the exit code is -1 and the message shows -4. -/
theorem wmain_create_grantDenied :
    (wmain OS.grantDenied ["lsa", "create", "svc", "secret"]).run {} =
      (-1,
        { calls := [.NetUserGetInfo "svc" NERR_UserNotFound, .NetApiBufferFree,
            .NetUserAdd ⟨"svc", "secret", 1, "", 0x10001⟩ 0,
            .LookupAccountName "svc" 1, .LsaOpenPolicy 0 7,
            .LsaAddAccountRights 7 [1, 5, 21, 1001] "SeServiceLogonRight"
              STATUS_ACCESS_DENIED,
            .LsaClose 7]
          out := ["ERROR failed to create account with result=-4\n"] }) := by
  rfl

/-- A `NET_API_STATUS` with its top bit set is a negative `int`. -/
theorem DWORD.toInt_top : (4294967295 : DWORD).toInt = -1 ∧ (2221 : DWORD).toInt = 2221 := by
  decide

/-! ## The claims -/

/-- C1. For every combination of outcomes, `DestroyServiceAccount` returns the
code of the first teardown step that failed (-2 SID lookup, -3 policy open,
-6 bulk revoke, -7 SID-to-string, -8 profile deletion, -9 account deletion),
where the two tolerated not-found outcomes count as success; it returns 0
exactly when every step succeeded, and never -4, -5 or any other value. -/
theorem DestroyServiceAccount_returns_first_failure (os : OS) (name : String) :
    (ret (DestroyServiceAccount os name) =
      if ¬ os.sidFound then -2
      else if ¬ os.policyOpened then -3
      else if ¬ os.rightsRevoked then -6
      else if ¬ os.sidRendered then -7
      else if ¬ os.profileDeleted then -8
      else if ¬ os.accountDeleted then -9
      else 0) ∧
    (ret (DestroyServiceAccount os name) = 0 ↔
      os.sidFound ∧ os.policyOpened ∧ os.rightsRevoked ∧ os.sidRendered ∧
        os.profileDeleted ∧ os.accountDeleted) ∧
    ret (DestroyServiceAccount os name) ∈ [0, -2, -3, -6, -7, -8, -9] ∧
    ret (DestroyServiceAccount os name) ≠ -4 ∧
    ret (DestroyServiceAccount os name) ≠ -5 := by
  simp only [ret, DestroyServiceAccount, StateT.run, addRemoveAccountRight_teardown]
  split_ifs <;> simp [*]

/-- C2 fails as stated: when the account is added and the grant call is
refused with `STATUS_ACCESS_DENIED`, `CreateServiceAccount` returns -4, not
that status. -/
theorem CreateServiceAccount_grant_failure_is_not_os_status :
    OS.grantDenied.NetUserAdd = 0 ∧ OS.grantDenied.sidFound ∧ OS.grantDenied.policyOpened ∧
    OS.grantDenied.LsaAddAccountRights = STATUS_ACCESS_DENIED ∧
    STATUS_ACCESS_DENIED ≠ STATUS_SUCCESS ∧
    ret (CreateServiceAccount OS.grantDenied "svc" "secret" "") = -4 ∧
    ret (CreateServiceAccount OS.grantDenied "svc" "secret" "") ≠
      OS.grantDenied.LsaAddAccountRights := by
  refine ⟨by decide, by decide, by decide, by decide, by decide, ?_, ?_⟩ <;>
    simp [ret, StateT.run, CreateServiceAccount_run, addRemoveAccountRight_named,
      OS.grantDenied, OS.fresh, OS.healthy, OS.sidFound, OS.policyOpened, OS.rightGranted,
      STATUS_ACCESS_DENIED, STATUS_SUCCESS]

/-- C2, amended. `CreateServiceAccount` returns the status of `NetUserAdd`
(converted to `int`) when that call fails; otherwise the code of the first
failing step of the rights grant (-2 SID lookup, -3 policy open, -4 grant
call); it returns 0 exactly when the account is added and the grant
succeeds. -/
theorem CreateServiceAccount_returns_status_or_grant_code (os : OS)
    (name password comment : String) :
    (ret (CreateServiceAccount os name password comment) =
      if os.NetUserAdd ≠ 0 then os.NetUserAdd.toInt
      else if ¬ os.sidFound then -2
      else if ¬ os.policyOpened then -3
      else if ¬ os.rightGranted then -4
      else 0) ∧
    (ret (CreateServiceAccount os name password comment) = 0 ↔
      os.NetUserAdd = 0 ∧ os.sidFound ∧ os.policyOpened ∧ os.rightGranted) := by
  simp only [ret, StateT.run, CreateServiceAccount_run, addRemoveAccountRight_named]
  split_ifs <;> simp_all [DWORD.toInt_eq_zero]

/-- C3. In every call of `addRemoveAccountRight` the policy handle is closed
exactly once when `LsaOpenPolicy` succeeded and never otherwise: the number
of `LsaClose` calls equals the number of successful `LsaOpenPolicy` calls,
which is 0 or 1; the handle closed is the one opened; `LsaClose` is the last
call that takes the handle, and no call at all follows it. -/
theorem addRemoveAccountRight_closes_policy_handle_once (os : OS) (name : String)
    (rightName : Option String) (add : Bool) :
    (calls (addRemoveAccountRight os name rightName add)).countP Call.isLsaClose =
      (calls (addRemoveAccountRight os name rightName add)).countP Call.isPolicyOpened ∧
    (calls (addRemoveAccountRight os name rightName add)).countP Call.isPolicyOpened ≤ 1 ∧
    (calls (addRemoveAccountRight os name rightName add)).filter Call.isLsaClose =
      (if os.sidFound ∧ os.policyOpened then [Call.LsaClose os.LsaOpenPolicy.2] else []) ∧
    ((calls (addRemoveAccountRight os name rightName add)).filter Call.usesHandle).getLast? =
      (if os.sidFound ∧ os.policyOpened then some (Call.LsaClose os.LsaOpenPolicy.2)
        else none) ∧
    callsAfter Call.isLsaClose (calls (addRemoveAccountRight os name rightName add)) = [] := by
  rcases rightName with _ | r <;> cases add <;>
    simp only [calls, StateT.run, addRemoveAccountRight_teardown,
      addRemoveAccountRight_absent_add, addRemoveAccountRight_named] <;>
    split_ifs <;>
    simp_all [Log.called, Call.isLsaClose, Call.isPolicyOpened, Call.usesHandle, callsAfter,
      OS.policyOpened]

/-- C4. In the full teardown, whatever the other outcomes are: a bulk revoke
that reports `STATUS_OBJECT_NAME_NOT_FOUND` gives the same return value and
the same later calls as one that reports `STATUS_SUCCESS`; a `DeleteProfile`
that fails with `ERROR_FILE_NOT_FOUND` gives the same return value and the
same later calls as one that succeeds; any other failure status of the bulk
revoke, once reached, returns -6, and any other last-error code of a failed
`DeleteProfile`, once reached, returns -8. -/
theorem teardown_tolerates_not_found (os : OS) (name : String) :
    (ret (DestroyServiceAccount
        { os with LsaRemoveAccountRights := STATUS_OBJECT_NAME_NOT_FOUND } name) =
      ret (DestroyServiceAccount { os with LsaRemoveAccountRights := STATUS_SUCCESS } name) ∧
     callsAfter Call.isRightsCall (calls (DestroyServiceAccount
        { os with LsaRemoveAccountRights := STATUS_OBJECT_NAME_NOT_FOUND } name)) =
      callsAfter Call.isRightsCall (calls (DestroyServiceAccount
        { os with LsaRemoveAccountRights := STATUS_SUCCESS } name))) ∧
    (∀ ok : Int, ok ≠ 0 →
      ret (DestroyServiceAccount
          { os with DeleteProfile := 0, GetLastError := ERROR_FILE_NOT_FOUND } name) =
        ret (DestroyServiceAccount { os with DeleteProfile := ok } name) ∧
      callsAfter Call.isProfileDelete (calls (DestroyServiceAccount
          { os with DeleteProfile := 0, GetLastError := ERROR_FILE_NOT_FOUND } name)) =
        callsAfter Call.isProfileDelete (calls (DestroyServiceAccount
          { os with DeleteProfile := ok } name))) ∧
    (∀ status : Int, status ≠ STATUS_SUCCESS → status ≠ STATUS_OBJECT_NAME_NOT_FOUND →
      os.sidFound → os.policyOpened →
      ret (DestroyServiceAccount { os with LsaRemoveAccountRights := status } name) = -6) ∧
    (∀ lastError : DWORD, lastError ≠ ERROR_FILE_NOT_FOUND →
      os.sidFound → os.policyOpened → os.rightsRevoked → os.sidRendered →
      ret (DestroyServiceAccount
        { os with DeleteProfile := 0, GetLastError := lastError } name) = -8) := by
  refine ⟨?_, ?_, ?_, ?_⟩
  · simp only [ret, calls, DestroyServiceAccount, StateT.run, addRemoveAccountRight_teardown]
    by_cases h1 : os.sidFound <;> by_cases h2 : os.policyOpened <;>
      by_cases h4 : os.sidRendered <;> by_cases h5 : os.profileDeleted <;>
      by_cases h6 : os.accountDeleted <;>
      simp_all [OS.sidFound, OS.policyOpened, OS.rightsRevoked, OS.sidRendered,
        OS.profileDeleted, OS.accountDeleted, Log.called, callsAfter, Call.isRightsCall]
  · intro ok hok
    simp only [ret, calls, DestroyServiceAccount, StateT.run, addRemoveAccountRight_teardown]
    by_cases h1 : os.sidFound <;> by_cases h2 : os.policyOpened <;>
      by_cases h3 : os.rightsRevoked <;> by_cases h4 : os.sidRendered <;>
      by_cases h6 : os.accountDeleted <;>
      simp_all [OS.sidFound, OS.policyOpened, OS.rightsRevoked, OS.sidRendered,
        OS.profileDeleted, OS.accountDeleted, Log.called, callsAfter, Call.isProfileDelete]
  · intro status hs hn h1 h2
    simp only [ret, DestroyServiceAccount, StateT.run, addRemoveAccountRight_teardown]
    simp_all [OS.sidFound, OS.policyOpened, OS.rightsRevoked]
  · intro lastError he h1 h2 h3 h4
    simp only [ret, DestroyServiceAccount, StateT.run, addRemoveAccountRight_teardown]
    simp_all [OS.sidFound, OS.policyOpened, OS.rightsRevoked, OS.sidRendered,
      OS.profileDeleted]

/-- C4 at a concrete system: on a healthy machine, a missing rights entry
and a missing profile leave the result 0, a denied revoke gives -6 and a
denied profile deletion gives -8. -/
theorem teardown_tolerates_not_found_witness :
    ret (DestroyServiceAccount
        { OS.healthy with LsaRemoveAccountRights := STATUS_OBJECT_NAME_NOT_FOUND } "svc") =
      ret (DestroyServiceAccount
        { OS.healthy with LsaRemoveAccountRights := STATUS_SUCCESS } "svc") ∧
    ret (DestroyServiceAccount
        { OS.healthy with LsaRemoveAccountRights := STATUS_ACCESS_DENIED } "svc") = -6 ∧
    ret (DestroyServiceAccount
        { OS.healthy with DeleteProfile := 0, GetLastError := ERROR_ACCESS_DENIED } "svc") = -8 :=
  ⟨(teardown_tolerates_not_found OS.healthy "svc").1.1,
    (teardown_tolerates_not_found OS.healthy "svc").2.2.1 STATUS_ACCESS_DENIED
      (by decide) (by decide) (by decide) (by decide),
    (teardown_tolerates_not_found OS.healthy "svc").2.2.2 ERROR_ACCESS_DENIED
      (by decide) (by decide) (by decide) (by decide) (by decide)⟩

/-- C5. In the full teardown the destructive steps are attempted in the order
remove all rights, render the SID, delete the profile, delete the account,
and stop at the first failing step: the steps carried out are the first `k`
of that order, `k` counting the steps up to and including the first failure;
after the last step attempted only releases are called; every mutating call is
one of the four steps; `NetUserDel` is called exactly when all earlier steps
succeeded or hit their tolerated outcome, and `DeleteProfile` exactly when
the revoke did and the SID was rendered. -/
theorem teardown_steps_in_order (os : OS) (name : String) :
    (calls (DestroyServiceAccount os name)).filterMap Call.teardownStep =
      [TeardownStep.removeAllRights, .renderSid, .deleteProfile, .deleteAccount].take
        (if ¬ (os.sidFound ∧ os.policyOpened) then 0
          else if ¬ os.rightsRevoked then 1
          else if ¬ os.sidRendered then 2
          else if ¬ os.profileDeleted then 3
          else 4) ∧
    (calls (DestroyServiceAccount os name)).filterMap Call.teardownStep <+:
      [TeardownStep.removeAllRights, .renderSid, .deleteProfile, .deleteAccount] ∧
    (callsAfterLast (fun c => c.teardownStep.isSome)
      (calls (DestroyServiceAccount os name))).all Call.isRelease = true ∧
    (calls (DestroyServiceAccount os name)).all
      (fun c => !c.isMutating || c.teardownStep.isSome) = true ∧
    ((calls (DestroyServiceAccount os name)).any Call.isAccountDelete = true ↔
      os.sidFound ∧ os.policyOpened ∧ os.rightsRevoked ∧ os.sidRendered ∧
        os.profileDeleted) ∧
    ((calls (DestroyServiceAccount os name)).any Call.isProfileDelete = true ↔
      os.sidFound ∧ os.policyOpened ∧ os.rightsRevoked ∧ os.sidRendered) := by
  simp only [calls, DestroyServiceAccount, StateT.run, addRemoveAccountRight_teardown]
  split_ifs <;>
    simp_all [Log.called, Call.teardownStep, Call.isRelease, Call.isMutating,
      Call.isAccountDelete, Call.isProfileDelete, callsAfterLast]

/-- C8. With a right name present, `addRemoveAccountRight` returns -2 if the
SID lookup fails, else -3 if the policy cannot be opened, else -4 if `add` is
true and the grant fails, else -5 if `add` is false and the revoke fails,
else 0. Its rights calls are, once the policy is open, exactly one call for
that named right (`LsaAddAccountRights`, or `LsaRemoveAccountRights` with the
all-rights flag off), and none before that; it never calls
`ConvertSidToStringSid`, `DeleteProfile` or `NetUserDel`. -/
theorem named_right_codes_and_single_rights_call (os : OS) (name rightName : String) (add : Bool) :
    (ret (addRemoveAccountRight os name (some rightName) add) =
      if ¬ os.sidFound then -2
      else if ¬ os.policyOpened then -3
      else if add = true ∧ ¬ os.rightGranted then -4
      else if add = false ∧ ¬ os.rightRemoved then -5
      else 0) ∧
    ((calls (addRemoveAccountRight os name (some rightName) add)).filter Call.isRightsCall =
      if os.sidFound ∧ os.policyOpened then
        [if add then
          Call.LsaAddAccountRights os.LsaOpenPolicy.2 os.LookupAccountName.2 rightName
            os.LsaAddAccountRights
        else
          Call.LsaRemoveAccountRights os.LsaOpenPolicy.2 os.LookupAccountName.2 false
            (some rightName) os.LsaRemoveAccountRights]
      else []) ∧
    (calls (addRemoveAccountRight os name (some rightName) add)).any
      (fun c => c.isSidRender || c.isProfileDelete || c.isAccountDelete) = false := by
  cases add <;>
    simp only [ret, calls, StateT.run, addRemoveAccountRight_named] <;>
    split_ifs <;>
    simp_all [Log.called, Call.isRightsCall, Call.isSidRender, Call.isProfileDelete,
      Call.isAccountDelete]

/-- C9. In the full teardown the rendered SID string is released exactly once
when `ConvertSidToStringSid` was reached and succeeded, whatever
`DeleteProfile` and `NetUserDel` then do, and never otherwise: the
`LocalFree` calls are as many as the successful conversions, 0 or 1; the
string released is the one rendered; no `DeleteProfile` follows the release;
a return of -7 comes with no release and a return of -8 with one. -/
theorem teardown_releases_sid_string_once (os : OS) (name : String) :
    (calls (DestroyServiceAccount os name)).filter Call.isLocalFree =
      (if os.sidFound ∧ os.policyOpened ∧ os.rightsRevoked ∧ os.sidRendered then
        [Call.LocalFree os.ConvertSidToStringSid.2] else []) ∧
    (calls (DestroyServiceAccount os name)).countP Call.isLocalFree =
      (calls (DestroyServiceAccount os name)).countP Call.isSidRendered ∧
    (calls (DestroyServiceAccount os name)).countP Call.isSidRendered ≤ 1 ∧
    (callsAfter Call.isLocalFree (calls (DestroyServiceAccount os name))).any
      Call.isProfileDelete = false ∧
    (ret (DestroyServiceAccount os name) = -7 →
      (calls (DestroyServiceAccount os name)).countP Call.isLocalFree = 0) ∧
    (ret (DestroyServiceAccount os name) = -8 →
      (calls (DestroyServiceAccount os name)).countP Call.isLocalFree = 1) := by
  simp only [ret, calls, DestroyServiceAccount, StateT.run, addRemoveAccountRight_teardown]
  split_ifs <;>
    simp_all [Log.called, Call.isLocalFree, Call.isSidRendered, Call.isProfileDelete,
      callsAfter, OS.sidRendered]

/-- C9 at concrete systems: a denied profile deletion returns -8 and the
string is released once; a failed conversion returns -7 with no release. -/
theorem teardown_releases_sid_string_once_witness :
    (calls (DestroyServiceAccount
      { OS.healthy with DeleteProfile := 0, GetLastError := ERROR_ACCESS_DENIED }
      "svc")).countP Call.isLocalFree = 1 ∧
    (calls (DestroyServiceAccount
      { OS.healthy with ConvertSidToStringSid := (0, "") } "svc")).countP Call.isLocalFree = 0 :=
  ⟨(teardown_releases_sid_string_once
      { OS.healthy with DeleteProfile := 0, GetLastError := ERROR_ACCESS_DENIED } "svc").2.2.2.2.2
      (by decide),
    (teardown_releases_sid_string_once
      { OS.healthy with ConvertSidToStringSid := (0, "") } "svc").2.2.2.2.1 (by decide)⟩

/-- C10. With no right name and `add` true, once the SID lookup and the policy
open succeed, `addRemoveAccountRight` calls only `LookupAccountName`,
`LsaOpenPolicy` and `LsaClose` (no rights call, no profile or account
deletion) and returns 0. -/
theorem addRemoveAccountRight_absent_right_add_grants_nothing (os : OS) (name : String)
    (hfound : os.sidFound) (hopened : os.policyOpened) :
    ret (addRemoveAccountRight os name none true) = 0 ∧
    calls (addRemoveAccountRight os name none true) =
      [Call.LookupAccountName name os.LookupAccountName.1,
        Call.LsaOpenPolicy os.LsaOpenPolicy.1 os.LsaOpenPolicy.2,
        Call.LsaClose os.LsaOpenPolicy.2] ∧
    (calls (addRemoveAccountRight os name none true)).any Call.isMutating = false := by
  simp only [ret, calls, StateT.run, addRemoveAccountRight_absent_add]
  simp [hfound, hopened, Log.called, Call.isMutating]

/-- C10 on a healthy machine. -/
theorem addRemoveAccountRight_absent_right_add_grants_nothing_witness :
    OS.healthy.sidFound ∧ OS.healthy.policyOpened ∧
    ret (addRemoveAccountRight OS.healthy "svc" none true) = 0 ∧
    calls (addRemoveAccountRight OS.healthy "svc" none true) =
      [Call.LookupAccountName "svc" 1, Call.LsaOpenPolicy 0 7, Call.LsaClose 7] :=
  ⟨by decide, by decide,
    (addRemoveAccountRight_absent_right_add_grants_nothing OS.healthy "svc"
      (by decide) (by decide)).1,
    (addRemoveAccountRight_absent_right_add_grants_nothing OS.healthy "svc"
      (by decide) (by decide)).2.1⟩

/-- C6. For every argument vector and every combination of outcomes, `wmain`
returns 0 or -1, and returns 0 exactly when the arguments are `create`, a name
and a password, the account is reported absent and `CreateServiceAccount`
returns 0, or the arguments are `destroy` and a name, the account is
reported present and `DestroyServiceAccount` returns 0; every other argument
vector gives -1 and no call. -/
theorem wmain_exit_code (os : OS) (argv : List String) :
    (ret (wmain os argv) = 0 ∨ ret (wmain os argv) = -1) ∧
    (ret (wmain os argv) = 0 ↔
      (∃ prog name password, argv = [prog, "create", name, password] ∧
        ret (ServiceAccountExists os name) ≠ 0 ∧
        ret (CreateServiceAccount os name password "") = 0) ∨
      (∃ prog name, argv = [prog, "destroy", name] ∧
        ret (ServiceAccountExists os name) = 0 ∧
        ret (DestroyServiceAccount os name) = 0)) ∧
    ((¬ ∃ prog name password, argv = [prog, "create", name, password]) →
      (¬ ∃ prog name, argv = [prog, "destroy", name]) →
      ret (wmain os argv) = -1 ∧ calls (wmain os argv) = []) := by
  by_cases hc : argv.length = 4 ∧ argv[1]? = some "create"
  · obtain ⟨prog, n, pw, rfl⟩ : ∃ prog n pw, argv = [prog, "create", n, pw] := by
      rcases argv with _ | ⟨a, _ | ⟨b, _ | ⟨c, _ | ⟨d, _ | ⟨e, l⟩⟩⟩⟩⟩ <;> simp at hc
      exact ⟨a, c, d, by rw [hc]⟩
    rw [wmain_create, createServiceAccount_ret]
    refine ⟨by split_ifs <;> simp, ⟨fun h0 => ?_, ?_⟩, fun h1 _ => absurd ⟨_, _, _, rfl⟩ h1⟩
    · split_ifs at h0 with h
      exact Or.inl ⟨prog, n, pw, rfl, h.1, h.2⟩
    · rintro (⟨p, n', pw', heq, h1, h2⟩ | ⟨p, n', heq, -⟩)
      · simp only [List.cons.injEq, and_true] at heq
        obtain ⟨-, -, rfl, rfl⟩ := heq
        rw [if_pos ⟨h1, h2⟩]
      · simp at heq
  by_cases hd : argv.length = 3 ∧ argv[1]? = some "destroy"
  · obtain ⟨prog, n, rfl⟩ : ∃ prog n, argv = [prog, "destroy", n] := by
      rcases argv with _ | ⟨a, _ | ⟨b, _ | ⟨c, _ | ⟨d, l⟩⟩⟩⟩ <;> simp at hd
      exact ⟨a, c, by rw [hd]⟩
    rw [wmain_destroy, destroyServiceAccount_ret]
    refine ⟨by split_ifs <;> simp, ⟨fun h0 => ?_, ?_⟩, fun _ h2 => absurd ⟨_, _, rfl⟩ h2⟩
    · split_ifs at h0 with h
      exact Or.inr ⟨prog, n, rfl, h.1, h.2⟩
    · rintro (⟨p, n', pw', heq, -⟩ | ⟨p, n', heq, h1, h2⟩)
      · simp at heq
      · simp only [List.cons.injEq, and_true] at heq
        obtain ⟨-, -, rfl⟩ := heq
        rw [if_pos ⟨h1, h2⟩]
  · have hw := wmain_help os argv hc hd
    refine ⟨Or.inr hw.1, ?_, fun _ _ => hw⟩
    rw [hw.1]
    constructor
    · intro h; exact absurd h (by decide)
    · rintro (⟨p, n, pw, rfl, -⟩ | ⟨p, n, rfl, -⟩)
      · exact absurd ⟨rfl, rfl⟩ hc
      · exact absurd ⟨rfl, rfl⟩ hd

/-- C6 at a concrete argument vector: `destroy` with a password too is not a
recognised shape, so `wmain` returns -1 and calls nothing. -/
theorem wmain_exit_code_witness :
    ret (wmain OS.healthy ["lsa", "destroy", "svc", "secret"]) = -1 ∧
    calls (wmain OS.healthy ["lsa", "destroy", "svc", "secret"]) = [] :=
  (wmain_exit_code OS.healthy ["lsa", "destroy", "svc", "secret"]).2.2
    (by simp) (by simp)

/-- C7. When the existence check contradicts the command, the dispatcher
returns -1 and its only calls are those of the existence query
(`NetUserGetInfo` and the release of its buffer): `create` on an account that
`ServiceAccountExists` reports present (0), and `destroy` on one it reports
absent (nonzero), make no mutating call. -/
theorem dispatcher_refusal_calls_only_existence_query (os : OS)
    (prog name password : String) :
    (ret (ServiceAccountExists os name) = 0 →
      ret (wmain os [prog, "create", name, password]) = -1 ∧
      ret (createServiceAccount os name password) = -1 ∧
      calls (wmain os [prog, "create", name, password]) =
        [Call.NetUserGetInfo name os.NetUserGetInfo, Call.NetApiBufferFree] ∧
      calls (wmain os [prog, "create", name, password]) =
        calls (ServiceAccountExists os name) ∧
      (calls (wmain os [prog, "create", name, password])).any Call.isMutating = false) ∧
    (ret (ServiceAccountExists os name) ≠ 0 →
      ret (wmain os [prog, "destroy", name]) = -1 ∧
      ret (destroyServiceAccount os name) = -1 ∧
      calls (wmain os [prog, "destroy", name]) =
        [Call.NetUserGetInfo name os.NetUserGetInfo, Call.NetApiBufferFree] ∧
      calls (wmain os [prog, "destroy", name]) = calls (ServiceAccountExists os name) ∧
      (calls (wmain os [prog, "destroy", name])).any Call.isMutating = false) := by
  constructor
  · intro h
    simp [wmain_create, ret, calls, StateT.run, createServiceAccount_refused os name password h,
      ServiceAccountExists_run, Log.called, Call.isMutating]
  · intro h
    simp [wmain_destroy, ret, calls, StateT.run, destroyServiceAccount_refused os name h,
      ServiceAccountExists_run, Log.called, Call.isMutating]

/-- C7 at concrete systems: `create` where the account exists, and `destroy`
where it does not. -/
theorem dispatcher_refusal_calls_only_existence_query_witness :
    (ret (ServiceAccountExists OS.healthy "svc") = 0 ∧
      ret (wmain OS.healthy ["lsa", "create", "svc", "secret"]) = -1 ∧
      calls (wmain OS.healthy ["lsa", "create", "svc", "secret"]) =
        [Call.NetUserGetInfo "svc" 0, Call.NetApiBufferFree]) ∧
    (ret (ServiceAccountExists OS.fresh "svc") ≠ 0 ∧
      ret (wmain OS.fresh ["lsa", "destroy", "svc"]) = -1 ∧
      calls (wmain OS.fresh ["lsa", "destroy", "svc"]) =
        [Call.NetUserGetInfo "svc" NERR_UserNotFound, Call.NetApiBufferFree]) :=
  ⟨⟨by decide,
    ((dispatcher_refusal_calls_only_existence_query OS.healthy "lsa" "svc" "secret").1
      (by decide)).1,
    ((dispatcher_refusal_calls_only_existence_query OS.healthy "lsa" "svc" "secret").1
      (by decide)).2.2.1⟩,
   ⟨by decide,
    ((dispatcher_refusal_calls_only_existence_query OS.fresh "lsa" "svc" "secret").2
      (by decide)).1,
    ((dispatcher_refusal_calls_only_existence_query OS.fresh "lsa" "svc" "secret").2
      (by decide)).2.2.1⟩⟩

end LocalServiceAccount
